import Mathlib

/-!
Shallow embedding of `nemo/collections/nlp/data/glue_benchmark/text2text_ptune_dataset.py`.

Token ids are modelled as `Int`, token sequences as `List Int`.  Python list
slicing is embedded explicitly (`pySliceTo` reproduces `l[:stop]` including the
negative-stop behaviour; `List.drop` reproduces `l[cut:]` for `cut ≥ 0`).
The tokenizer collaborator is an abstract record exposing `text_to_ids` and
the `pad_id` / `bos_id` / `eos_id` constants, exactly the interface the file
uses.  Length budgets (`max_seq_length`, `max_seq_length_decoder`) are
non-negative machine integers, modelled as `Nat`.
-/

namespace PTune

/-- Tokenizer collaborator: the methods and constants of `TokenizerSpec`
that `text2text_ptune_dataset.py` actually uses. -/
structure Tokenizer where
  text_to_ids : String → List Int
  pad_id : Int
  bos_id : Int
  eos_id : Int

/-- An `InputExample` as built by the processors (`guid`, `text_a`, `text_b`,
`label`). -/
structure InputExample where
  guid : String
  text_a : String
  text_b : String
  label : String
deriving DecidableEq, Repr

/-- Python slice `l[:stop]` where `stop` may be negative: a negative stop
counts from the end of the list, clamped at `0`. -/
def pySliceTo (l : List Int) (stop : Int) : List Int :=
  if 0 ≤ stop then l.take stop.toNat else l.take (l.length - stop.natAbs)

/-- The prompt string built by `MnliProcessor.get_ptune_query` (and by
`get_t5_prompted_query`): the f-string `"mnli hypothesis: {text_a} premise: {text_b}"`. -/
def full_sentence (text_a text_b : String) : String :=
  "mnli hypothesis: " ++ text_a ++ " premise: " ++ text_b

/-- Embedding of `MnliProcessor.get_ptune_query` (lines 127-140), inherited
unchanged by `XNliProcessor`.  `templates` is the `[left_len, right_len]`
pair; `sum(templates)` is `templates.1 + templates.2`.  The Python slice
`input_token_ids[cut:]` with `cut ≥ 0` is `List.drop cut`. -/
def get_ptune_query (tokenizer : Tokenizer) (text_a text_b : String)
    (prompt_token_id : Int) (max_seq_len : Nat) (templates : Nat × Nat) : List Int :=
  let input_token_ids := tokenizer.text_to_ids (full_sentence text_a text_b)
  let cut : Nat :=
    if input_token_ids.length + (templates.1 + templates.2) > max_seq_len then
      input_token_ids.length + (templates.1 + templates.2) - max_seq_len
    else 0
  List.replicate templates.1 prompt_token_id
    ++ input_token_ids.drop cut
    ++ List.replicate templates.2 prompt_token_id

/-- Embedding of `MnliProcessor.label2string` (line 142-143): the identity,
also inherited by `XNliProcessor`. -/
def label2string (label : String) : String := label

/-- Checked access `line[j]` for `j ≥ 0` on a Python list: `none` models the
`IndexError` that aborts `_create_examples` on a short row. -/
def pyGet (line : List String) (j : Nat) : Option String := line.get? j

/-- Checked access `line[-1]` on a Python list. -/
def pyGetLast (line : List String) : Option String := line.getLast?

/-- Embedding of the body of `MnliProcessor._create_examples` for one data
row (lines 117-121): `guid = "%s-%s" % (set_type, line[0])`,
`text_a = line[8]`, `text_b = line[9]`, `label = line[-1]`.  A failing index
access yields `none`. -/
def mnli_row_to_example (set_type : String) (line : List String) : Option InputExample :=
  match pyGet line 0, pyGet line 8, pyGet line 9, pyGetLast line with
  | some c0, some ta, some tb, some lab =>
      some { guid := set_type ++ "-" ++ c0, text_a := ta, text_b := tb, label := lab }
  | _, _, _, _ => none

/-- Embedding of the body of `XNliProcessor._create_examples` for one data
row (lines 155-159): `guid = "%s-%s" % (set_type, line[0])`,
`text_a = line[6]`, `text_b = line[7]`, `label = line[1]`. -/
def xnli_row_to_example (set_type : String) (line : List String) : Option InputExample :=
  match pyGet line 0, pyGet line 6, pyGet line 7, pyGet line 1 with
  | some c0, some ta, some tb, some lab =>
      some { guid := set_type ++ "-" ++ c0, text_a := ta, text_b := tb, label := lab }
  | _, _, _, _ => none

/-- Sequential accumulation of the `examples` list in `_create_examples`:
each row is converted in order and appended, and the first row whose
conversion raises aborts the whole run with `none`. -/
def mapOrAbort (f : α → Option β) : List α → Option (List β)
  | [] => some []
  | a :: l =>
      match f a, mapOrAbort f l with
      | some b, some bs => some (b :: bs)
      | _, _ => none

/-- Embedding of `MnliProcessor._create_examples` (lines 111-122): skip the
header row (`i == 0`), turn every later row into an `InputExample`; the first
row that raises aborts the whole construction (`none`). -/
def mnli_create_examples (lines : List (List String)) (set_type : String) :
    Option (List InputExample) :=
  mapOrAbort (mnli_row_to_example set_type) (lines.drop 1)

/-- Embedding of `XNliProcessor._create_examples` (lines 149-160). -/
def xnli_create_examples (lines : List (List String)) (set_type : String) :
    Option (List InputExample) :=
  mapOrAbort (xnli_row_to_example set_type) (lines.drop 1)

/-- Python `str.split(sep)` on a character-list representation of the
string: `"".split(sep)` is `[""]`, adjacent separators produce empty parts. -/
def pySplitChar (sep : Char) : List Char → List (List Char)
  | [] => [[]]
  | c :: rest =>
      if c = sep then [] :: pySplitChar sep rest
      else
        match pySplitChar sep rest with
        | [] => [[c]]
        | r :: rs => (c :: r) :: rs

/-- Python `example.guid.split('-')[1]` (line 394): `none` models the
`IndexError` raised when the guid holds no `'-'`. -/
def guid_lang (guid : String) : Option String :=
  ((pySplitChar '-' guid.data).get? 1).map List.asString

/-- The decoder-query construction shared verbatim by
`TextToTextPTuneDataset.convert_examples_to_features` (lines 310-318) and
`TextToTextXNliDataset.convert_examples_to_features` (lines 382-390):
`cut = max(0, len(ids) + 2 - max_seq_length_decoder)` and
`dec_query = [bos_id] + ids[:(len(ids) - cut)] + [eos_id]`, where the Python
stop index `len(ids) - cut` may be negative. -/
def build_dec_query (tokenizer : Tokenizer) (max_seq_length_decoder : Nat)
    (label : String) : List Int :=
  let dec_content_ids := tokenizer.text_to_ids (label2string label)
  let cut : Nat :=
    if dec_content_ids.length + 2 > max_seq_length_decoder then
      dec_content_ids.length + 2 - max_seq_length_decoder
    else 0
  [tokenizer.bos_id]
    ++ pySliceTo dec_content_ids ((dec_content_ids.length : Int) - (cut : Int))
    ++ [tokenizer.eos_id]

/-- A feature triple `[enc_query, dec_input, labels]` of
`TextToTextPTuneDataset`. -/
structure Feature where
  enc_query : List Int
  dec_input : List Int
  labels : List Int
deriving DecidableEq, Repr

/-- A feature quadruple `[enc_query, dec_input, labels, lang]` of
`TextToTextXNliDataset`; `lang` is `guid.split('-')[1]`. -/
structure FeatureX where
  enc_query : List Int
  dec_input : List Int
  labels : List Int
  lang : Option String
deriving DecidableEq, Repr

/-- The loop body of `TextToTextPTuneDataset.convert_examples_to_features`
(lines 307-323): Query Builder, hard cap `enc_query[:max_seq_length]` when
the result is still longer, decoder query, and the shifted pair
`dec_query[:-1]` / `dec_query[1:]`. -/
def ptune_convert_example (tokenizer : Tokenizer) (templates : Nat × Nat)
    (pseudo_token_id : Int) (max_seq_length max_seq_length_decoder : Nat)
    (ex : InputExample) : Feature :=
  let enc_query0 :=
    get_ptune_query tokenizer ex.text_a ex.text_b pseudo_token_id max_seq_length templates
  let enc_query :=
    if enc_query0.length > max_seq_length then enc_query0.take max_seq_length else enc_query0
  let dec_query := build_dec_query tokenizer max_seq_length_decoder ex.label
  { enc_query := enc_query, dec_input := dec_query.dropLast, labels := dec_query.tail }

/-- Embedding of `TextToTextPTuneDataset.convert_examples_to_features`
(lines 297-325). -/
def ptune_convert_examples_to_features (tokenizer : Tokenizer) (templates : Nat × Nat)
    (pseudo_token_id : Int) (max_seq_length max_seq_length_decoder : Nat)
    (examples : List InputExample) : List Feature :=
  examples.map
    (ptune_convert_example tokenizer templates pseudo_token_id max_seq_length
      max_seq_length_decoder)

/-- The loop body of `TextToTextXNliDataset.convert_examples_to_features`
(lines 381-394): same as the P-Tune variant but with no hard cap on the
encoder sequence, and with `example.guid.split('-')[1]` appended. -/
def xnli_convert_example (tokenizer : Tokenizer) (templates : Nat × Nat)
    (pseudo_token_id : Int) (max_seq_length max_seq_length_decoder : Nat)
    (ex : InputExample) : FeatureX :=
  let enc_query :=
    get_ptune_query tokenizer ex.text_a ex.text_b pseudo_token_id max_seq_length templates
  let dec_query := build_dec_query tokenizer max_seq_length_decoder ex.label
  { enc_query := enc_query, dec_input := dec_query.dropLast, labels := dec_query.tail,
    lang := guid_lang ex.guid }

/-- Embedding of `TextToTextXNliDataset.convert_examples_to_features`
(lines 371-395). -/
def xnli_convert_examples_to_features (tokenizer : Tokenizer) (templates : Nat × Nat)
    (pseudo_token_id : Int) (max_seq_length max_seq_length_decoder : Nat)
    (examples : List InputExample) : List FeatureX :=
  examples.map
    (xnli_convert_example tokenizer templates pseudo_token_id max_seq_length
      max_seq_length_decoder)

/-- Python `max` over a list of non-negative lengths (the list is non-empty
whenever `collate_fn` is reached with a non-empty batch). -/
def listMax (ls : List Nat) : Nat := ls.foldr max 0

/-- The list-level fields of the batch record returned by `collate_fn`:
`text_enc`, `text_dec`, `labels`, `loss_mask` before tensor conversion.  The
attention masks (`enc_mask`, `dec_mask`, `enc_dec_mask`) are produced by the
external collaborators `make_attention_mask_3d` / `make_history_mask_3d`
and are outside this embedding. -/
structure Batch where
  text_enc : List (List Int)
  text_dec : List (List Int)
  labels : List (List Int)
  loss_mask : List (List Int)
deriving DecidableEq, Repr

/-- The `TextToTextXNliDataset.collate_fn` batch additionally carries the
unpadded `lang` list. -/
structure BatchX where
  text_enc : List (List Int)
  text_dec : List (List Int)
  labels : List (List Int)
  loss_mask : List (List Int)
  lang : List (Option String)
deriving DecidableEq, Repr

/-- Embedding of the padding part of `TextToTextPTuneDataset.collate_fn`
(lines 263-280): compute the three maxima, build `loss_mask` from the
original label lengths, then right-pad each field to its own maximum with
`pad_id`. -/
def ptune_collate_fn (tokenizer : Tokenizer) (batch : List Feature) : Batch :=
  let enc_query := batch.map Feature.enc_query
  let dec_input := batch.map Feature.dec_input
  let labels := batch.map Feature.labels
  let max_dec_input_length := listMax (dec_input.map List.length)
  let max_enc_query_length := listMax (enc_query.map List.length)
  let max_label_length := listMax (labels.map List.length)
  let loss_mask := labels.map fun item =>
    List.replicate item.length (1 : Int) ++ List.replicate (max_label_length - item.length) 0
  let enc_query := enc_query.map fun item =>
    item ++ List.replicate (max_enc_query_length - item.length) tokenizer.pad_id
  let dec_input := dec_input.map fun item =>
    item ++ List.replicate (max_dec_input_length - item.length) tokenizer.pad_id
  let labels := labels.map fun item =>
    item ++ List.replicate (max_label_length - item.length) tokenizer.pad_id
  { text_enc := enc_query, text_dec := dec_input, labels := labels, loss_mask := loss_mask }

/-- Embedding of the padding part of `TextToTextXNliDataset.collate_fn`
(lines 335-353), identical to the P-Tune variant plus the `lang`
passthrough. -/
def xnli_collate_fn (tokenizer : Tokenizer) (batch : List FeatureX) : BatchX :=
  let enc_query := batch.map FeatureX.enc_query
  let dec_input := batch.map FeatureX.dec_input
  let labels := batch.map FeatureX.labels
  let lang := batch.map FeatureX.lang
  let max_dec_input_length := listMax (dec_input.map List.length)
  let max_enc_query_length := listMax (enc_query.map List.length)
  let max_label_length := listMax (labels.map List.length)
  let loss_mask := labels.map fun item =>
    List.replicate item.length (1 : Int) ++ List.replicate (max_label_length - item.length) 0
  let enc_query := enc_query.map fun item =>
    item ++ List.replicate (max_enc_query_length - item.length) tokenizer.pad_id
  let dec_input := dec_input.map fun item =>
    item ++ List.replicate (max_dec_input_length - item.length) tokenizer.pad_id
  let labels := labels.map fun item =>
    item ++ List.replicate (max_label_length - item.length) tokenizer.pad_id
  { text_enc := enc_query, text_dec := dec_input, labels := labels, loss_mask := loss_mask,
    lang := lang }

/-- The truncation of label content stated by the spec sentence: the first
`len(content_ids) - overflow` tokens, empty when `overflow ≥ len(content_ids)`
(this is what natural-number subtraction gives). -/
def spec_truncate_content (content : List Int) (overflow : Nat) : List Int :=
  content.take (content.length - overflow)

/-- The decoder query exactly as the spec sentence words it:
`[BOS] + content_ids[: len(content_ids) - overflow] + [EOS]` with
`overflow = max(0, len(content_ids) + 2 - max_dec_len)`, where the truncated
content is empty as soon as `overflow ≥ len(content_ids)`. -/
def spec_dec_query (tokenizer : Tokenizer) (max_seq_length_decoder : Nat)
    (label : String) : List Int :=
  let content := tokenizer.text_to_ids (label2string label)
  let overflow := content.length + 2 - max_seq_length_decoder
  [tokenizer.bos_id] ++ spec_truncate_content content overflow ++ [tokenizer.eos_id]

/-- Tokenizer collaborator returning a fixed token list, for concrete
instantiations. -/
def constTok (ids : List Int) : Tokenizer :=
  { text_to_ids := fun _ => ids, pad_id := 0, bos_id := 100, eos_id := 101 }

/-- Concrete two-feature batch with label rows of lengths 2 and 1. -/
def bpW : List Feature :=
  [{ enc_query := [7], dec_input := [100, 3], labels := [3, 101] },
   { enc_query := [7, 8], dec_input := [100], labels := [101] }]

/-- Concrete singleton XNLI batch. -/
def bxW : List FeatureX :=
  [{ enc_query := [7], dec_input := [100], labels := [101], lang := some "de" }]

/-- Concrete example used to instantiate universally quantified theorems. -/
def exA : InputExample :=
  { guid := "train-de-1", text_a := "ta", text_b := "tb", label := "entailment" }

/-- MNLI data row with ten columns whose first column is not a row index. -/
def c6_row : List String :=
  ["foo", "1", "2", "3", "4", "5", "6", "7", "a8", "b9"]

/-- The example that `MnliProcessor._create_examples` builds from `c6_row`. -/
def c6_example : InputExample :=
  { guid := "train-foo", text_a := "a8", text_b := "b9", label := "b9" }

theorem length_sub_append_drop {α : Type} (A B : List α) :
    (A ++ B).drop ((A ++ B).length - B.length) = B := by
  have h : (A ++ B).length - B.length = A.length := by
    rw [List.length_append]; omega
  rw [h]
  exact List.drop_left A B

theorem le_listMax {l : List Nat} {x : Nat} (h : x ∈ l) : x ≤ listMax l := by
  induction l with
  | nil => cases h
  | cons a t ih =>
      rcases List.mem_cons.mp h with rfl | hm
      · exact le_max_left _ _
      · exact le_trans (ih hm) (le_max_right _ _)

/-- C1: when the tokenized prompt length plus the two template lengths
exceeds `max_len` by `k > 0`, `get_ptune_query` returns `left_len`
placeholders, then the tokenization with exactly its first `k` tokens
dropped, then `right_len` placeholders; the placeholder counts are kept. -/
theorem C1_query_left_truncation (tokenizer : Tokenizer) (text_a text_b : String)
    (prompt_token_id : Int) (max_seq_len k t0 t1 : Nat)
    (h : (tokenizer.text_to_ids (full_sentence text_a text_b)).length + t0 + t1
           = max_seq_len + k)
    (hk : 0 < k) :
    get_ptune_query tokenizer text_a text_b prompt_token_id max_seq_len (t0, t1) =
      List.replicate t0 prompt_token_id
        ++ (tokenizer.text_to_ids (full_sentence text_a text_b)).drop k
        ++ List.replicate t1 prompt_token_id := by
  have hgt : (tokenizer.text_to_ids (full_sentence text_a text_b)).length + (t0 + t1)
      > max_seq_len := by omega
  have hcut : (tokenizer.text_to_ids (full_sentence text_a text_b)).length + (t0 + t1)
      - max_seq_len = k := by omega
  simp only [get_ptune_query]
  rw [if_pos hgt, hcut]

/-- Witness for C1 at a five-token prompt, template `(2, 3)`, `max_len = 8`,
overflow `k = 2`. -/
theorem C1_query_left_truncation_witness :
    ((constTok [1, 2, 3, 4, 5]).text_to_ids (full_sentence "a" "b")).length + 2 + 3 = 8 + 2 ∧
    0 < 2 ∧
    get_ptune_query (constTok [1, 2, 3, 4, 5]) "a" "b" 9 8 (2, 3) =
      List.replicate 2 9
        ++ ((constTok [1, 2, 3, 4, 5]).text_to_ids (full_sentence "a" "b")).drop 2
        ++ List.replicate 3 9 :=
  ⟨by decide, by decide,
    C1_query_left_truncation (constTok [1, 2, 3, 4, 5]) "a" "b" 9 8 2 2 3
      (by decide) (by decide)⟩

/-- C2 counterexample: with a two-token tokenization, template `(1, 1)` and
`max_len = 1`, the built query is `[placeholder, placeholder]` of length 2,
so the claimed bound `len(result) ≤ max_len` fails. -/
theorem C2_counterexample :
    ¬ ((get_ptune_query (constTok [5, 6]) "a" "b" 9 1 (1, 1)).length ≤ 1) := by
  decide

/-- C2 amended: the built query's length is at most
`max max_len (left_len + right_len)`; in particular it is at most `max_len`
whenever `left_len + right_len ≤ max_len`, and the final `right_len` tokens
are always `placeholder_id`. -/
theorem C2_amended_length_and_suffix (tokenizer : Tokenizer) (text_a text_b : String)
    (prompt_token_id : Int) (max_seq_len t0 t1 : Nat) :
    (get_ptune_query tokenizer text_a text_b prompt_token_id max_seq_len (t0, t1)).length
        ≤ max max_seq_len (t0 + t1) ∧
    (t0 + t1 ≤ max_seq_len →
      (get_ptune_query tokenizer text_a text_b prompt_token_id max_seq_len (t0, t1)).length
        ≤ max_seq_len) ∧
    (get_ptune_query tokenizer text_a text_b prompt_token_id max_seq_len (t0, t1)).drop
        ((get_ptune_query tokenizer text_a text_b prompt_token_id max_seq_len (t0, t1)).length
          - t1)
      = List.replicate t1 prompt_token_id := by
  have hlen : ∀ cut : Nat,
      (List.replicate t0 prompt_token_id
        ++ (tokenizer.text_to_ids (full_sentence text_a text_b)).drop cut
        ++ List.replicate t1 prompt_token_id).length
      = t0 + ((tokenizer.text_to_ids (full_sentence text_a text_b)).length - cut) + t1 := by
    intro cut
    simp [List.length_append, List.length_replicate, List.length_drop]
    omega
  refine ⟨?_, ?_, ?_⟩
  · simp only [get_ptune_query]
    rw [hlen]
    by_cases hc : (tokenizer.text_to_ids (full_sentence text_a text_b)).length + (t0 + t1)
        > max_seq_len
    · rw [if_pos hc]; omega
    · rw [if_neg hc]; omega
  · intro hle
    simp only [get_ptune_query]
    rw [hlen]
    by_cases hc : (tokenizer.text_to_ids (full_sentence text_a text_b)).length + (t0 + t1)
        > max_seq_len
    · rw [if_pos hc]; omega
    · rw [if_neg hc]; omega
  · simp only [get_ptune_query]
    have h := length_sub_append_drop
      (List.replicate t0 prompt_token_id
        ++ (tokenizer.text_to_ids (full_sentence text_a text_b)).drop
            (if (tokenizer.text_to_ids (full_sentence text_a text_b)).length + (t0 + t1)
               > max_seq_len
             then (tokenizer.text_to_ids (full_sentence text_a text_b)).length + (t0 + t1)
               - max_seq_len
             else 0))
      (List.replicate t1 prompt_token_id)
    rw [List.length_replicate] at h
    exact h

/-- Witness for the hypothesis-bearing conjunct of the amended C2, at a
two-token tokenization, template `(1, 1)`, `max_len = 5`. -/
theorem C2_amended_length_and_suffix_witness :
    1 + 1 ≤ 5 ∧
    (get_ptune_query (constTok [5, 6]) "a" "b" 9 5 (1, 1)).length ≤ 5 :=
  ⟨by decide,
    (C2_amended_length_and_suffix (constTok [5, 6]) "a" "b" 9 5 1 1).2.1 (by decide)⟩

/-- C3 counterexample: label content of three tokens with
`max_seq_length_decoder = 1` gives `overflow = 4 ≥ 3`, so the claim predicts
the marker-only query `[bos, eos]`; the code's Python slice
`content[:3 - 4] = content[:-1]` instead keeps the first two tokens. -/
theorem C3_counterexample :
    build_dec_query (constTok [1, 2, 3]) 1 "x" = [100, 1, 2, 101] ∧
    spec_dec_query (constTok [1, 2, 3]) 1 "x" = [100, 101] ∧
    build_dec_query (constTok [1, 2, 3]) 1 "x" ≠ spec_dec_query (constTok [1, 2, 3]) 1 "x" := by
  refine ⟨by decide, by decide, by decide⟩

/-- C3 amended: for every `max_seq_length_decoder ≥ 2` the decoder query is
exactly `[bos] ++ content[: len - overflow] ++ [eos]` with
`overflow = max(0, len + 2 - max_seq_length_decoder)` and the truncated
content empty as soon as `overflow ≥ len`; below 2 the Python negative-stop
slice departs from this formula. -/
theorem C3_amended_dec_query (tokenizer : Tokenizer) (max_seq_length_decoder : Nat)
    (label : String) (h : 2 ≤ max_seq_length_decoder) :
    build_dec_query tokenizer max_seq_length_decoder label =
      spec_dec_query tokenizer max_seq_length_decoder label := by
  simp only [build_dec_query, spec_dec_query, spec_truncate_content, pySliceTo, label2string]
  by_cases hc : (tokenizer.text_to_ids label).length + 2 > max_seq_length_decoder
  · rw [if_pos hc]
    have hcut : (tokenizer.text_to_ids label).length + 2 - max_seq_length_decoder
        ≤ (tokenizer.text_to_ids label).length := by omega
    rw [if_pos (by omega :
      (0 : Int) ≤ ((tokenizer.text_to_ids label).length : Int)
        - (((tokenizer.text_to_ids label).length + 2 - max_seq_length_decoder : Nat) : Int))]
    have htoNat : (((tokenizer.text_to_ids label).length : Int)
        - (((tokenizer.text_to_ids label).length + 2 - max_seq_length_decoder : Nat) : Int)).toNat
      = (tokenizer.text_to_ids label).length
          - ((tokenizer.text_to_ids label).length + 2 - max_seq_length_decoder) := by
      omega
    rw [htoNat]
  · rw [if_neg hc]
    have hover : (tokenizer.text_to_ids label).length + 2 - max_seq_length_decoder = 0 := by
      omega
    rw [hover]
    simp

/-- Witness for the amended C3 at a three-token label content and
`max_seq_length_decoder = 5`. -/
theorem C3_amended_dec_query_witness :
    2 ≤ 5 ∧
    build_dec_query (constTok [1, 2, 3]) 5 "entailment" =
      spec_dec_query (constTok [1, 2, 3]) 5 "entailment" :=
  ⟨by decide, C3_amended_dec_query (constTok [1, 2, 3]) 5 "entailment" (by decide)⟩

/-- C4: every feature of either converter has decoder input and labels of
equal length, and the two sequences are `dec_query[:-1]` and `dec_query[1:]`
of one decoder query. -/
theorem C4_shifted_pair (tokenizer : Tokenizer) (templates : Nat × Nat)
    (pseudo_token_id : Int) (max_seq_length max_seq_length_decoder : Nat)
    (examples : List InputExample) :
    (∀ f ∈ ptune_convert_examples_to_features tokenizer templates pseudo_token_id
        max_seq_length max_seq_length_decoder examples,
      f.dec_input.length = f.labels.length ∧
      ∃ q : List Int, f.dec_input = q.dropLast ∧ f.labels = q.tail) ∧
    (∀ f ∈ xnli_convert_examples_to_features tokenizer templates pseudo_token_id
        max_seq_length max_seq_length_decoder examples,
      f.dec_input.length = f.labels.length ∧
      ∃ q : List Int, f.dec_input = q.dropLast ∧ f.labels = q.tail) := by
  constructor
  · intro f hf
    rcases List.mem_map.mp hf with ⟨ex, _, rfl⟩
    refine ⟨?_, build_dec_query tokenizer max_seq_length_decoder ex.label, rfl, rfl⟩
    show (build_dec_query tokenizer max_seq_length_decoder ex.label).dropLast.length
        = (build_dec_query tokenizer max_seq_length_decoder ex.label).tail.length
    rw [List.length_dropLast, List.length_tail]
  · intro f hf
    rcases List.mem_map.mp hf with ⟨ex, _, rfl⟩
    refine ⟨?_, build_dec_query tokenizer max_seq_length_decoder ex.label, rfl, rfl⟩
    show (build_dec_query tokenizer max_seq_length_decoder ex.label).dropLast.length
        = (build_dec_query tokenizer max_seq_length_decoder ex.label).tail.length
    rw [List.length_dropLast, List.length_tail]

/-- Witness for C4 on a singleton example list. -/
theorem C4_shifted_pair_witness :
    ptune_convert_example (constTok [1, 2]) (1, 1) 9 10 8 exA ∈
      ptune_convert_examples_to_features (constTok [1, 2]) (1, 1) 9 10 8 [exA] ∧
    (ptune_convert_example (constTok [1, 2]) (1, 1) 9 10 8 exA).dec_input.length =
      (ptune_convert_example (constTok [1, 2]) (1, 1) 9 10 8 exA).labels.length :=
  ⟨by decide,
    ((C4_shifted_pair (constTok [1, 2]) (1, 1) 9 10 8 [exA]).1 _ (by decide)).1⟩

/-- C5: the P-Tune converter caps any encoder sequence still longer than
`max_seq_length` by right-truncation to exactly `max_seq_length`, while the
XNLI converter stores the Query Builder output unchanged, and its stored
encoder sequence can exceed `max_seq_length`. -/
theorem C5_hard_cap_divergence (tokenizer : Tokenizer) (templates : Nat × Nat)
    (pseudo_token_id : Int) (max_seq_length max_seq_length_decoder : Nat)
    (ex : InputExample) :
    ((get_ptune_query tokenizer ex.text_a ex.text_b pseudo_token_id max_seq_length
        templates).length > max_seq_length →
      (ptune_convert_example tokenizer templates pseudo_token_id max_seq_length
          max_seq_length_decoder ex).enc_query
        = (get_ptune_query tokenizer ex.text_a ex.text_b pseudo_token_id max_seq_length
            templates).take max_seq_length ∧
      (ptune_convert_example tokenizer templates pseudo_token_id max_seq_length
          max_seq_length_decoder ex).enc_query.length = max_seq_length) ∧
    ((get_ptune_query tokenizer ex.text_a ex.text_b pseudo_token_id max_seq_length
        templates).length ≤ max_seq_length →
      (ptune_convert_example tokenizer templates pseudo_token_id max_seq_length
          max_seq_length_decoder ex).enc_query
        = get_ptune_query tokenizer ex.text_a ex.text_b pseudo_token_id max_seq_length
            templates) ∧
    (xnli_convert_example tokenizer templates pseudo_token_id max_seq_length
        max_seq_length_decoder ex).enc_query
      = get_ptune_query tokenizer ex.text_a ex.text_b pseudo_token_id max_seq_length
          templates ∧
    (xnli_convert_example (constTok [5, 6]) (1, 1) 9 1 8 exA).enc_query.length > 1 := by
  refine ⟨?_, ?_, rfl, by decide⟩
  · intro hgt
    constructor
    · show (if (get_ptune_query tokenizer ex.text_a ex.text_b pseudo_token_id max_seq_length
          templates).length > max_seq_length
        then (get_ptune_query tokenizer ex.text_a ex.text_b pseudo_token_id max_seq_length
          templates).take max_seq_length
        else get_ptune_query tokenizer ex.text_a ex.text_b pseudo_token_id max_seq_length
          templates) = _
      rw [if_pos hgt]
    · show (if (get_ptune_query tokenizer ex.text_a ex.text_b pseudo_token_id max_seq_length
          templates).length > max_seq_length
        then (get_ptune_query tokenizer ex.text_a ex.text_b pseudo_token_id max_seq_length
          templates).take max_seq_length
        else get_ptune_query tokenizer ex.text_a ex.text_b pseudo_token_id max_seq_length
          templates).length = max_seq_length
      rw [if_pos hgt, List.length_take]
      omega
  · intro hle
    show (if (get_ptune_query tokenizer ex.text_a ex.text_b pseudo_token_id max_seq_length
        templates).length > max_seq_length
      then (get_ptune_query tokenizer ex.text_a ex.text_b pseudo_token_id max_seq_length
        templates).take max_seq_length
      else get_ptune_query tokenizer ex.text_a ex.text_b pseudo_token_id max_seq_length
        templates) = _
    rw [if_neg (by omega)]

/-- Witness for C5: with template `(1, 1)` and `max_seq_length = 1` the
Query Builder emits two placeholders, and the P-Tune converter caps the
stored sequence to length 1. -/
theorem C5_hard_cap_divergence_witness :
    (get_ptune_query (constTok [5, 6]) exA.text_a exA.text_b 9 1 (1, 1)).length > 1 ∧
    (ptune_convert_example (constTok [5, 6]) (1, 1) 9 1 8 exA).enc_query.length = 1 :=
  ⟨by decide,
    ((C5_hard_cap_divergence (constTok [5, 6]) (1, 1) 9 1 8 exA).1 (by decide)).2⟩

theorem mapOrAbort_length {α β : Type} {f : α → Option β} :
    ∀ {l : List α} {res : List β}, mapOrAbort f l = some res → res.length = l.length := by
  intro l
  induction l with
  | nil =>
      intro res h
      simp only [mapOrAbort, Option.some.injEq] at h
      subst h
      rfl
  | cons a t ih =>
      intro res h
      rw [mapOrAbort] at h
      rcases hfa : f a with _ | b0 <;> rw [hfa] at h
      · exact absurd h (by simp)
      · rcases hmt : mapOrAbort f t with _ | bs <;> rw [hmt] at h
        · exact absurd h (by simp)
        · simp only [Option.some.injEq] at h
          subst h
          simp [ih hmt]

theorem mapOrAbort_get {α β : Type} {f : α → Option β} :
    ∀ {l : List α} {res : List β}, mapOrAbort f l = some res →
      ∀ {n : Nat} {a : α} {b : β}, l.get? n = some a → res.get? n = some b →
        f a = some b := by
  intro l
  induction l with
  | nil =>
      intro res h n a b ha hb
      exact absurd ha (by simp)
  | cons a0 t ih =>
      intro res h n a b ha hb
      rw [mapOrAbort] at h
      rcases hfa : f a0 with _ | b0 <;> rw [hfa] at h
      · exact absurd h (by simp)
      · rcases hmt : mapOrAbort f t with _ | bs <;> rw [hmt] at h
        · exact absurd h (by simp)
        · simp only [Option.some.injEq] at h
          subst h
          cases n with
          | zero =>
              simp only [List.get?_cons_zero, Option.some.injEq] at ha hb
              subst ha
              subst hb
              exact hfa
          | succ n =>
              rw [List.get?_cons_succ] at ha hb
              exact ih hmt ha hb

theorem mapOrAbort_eq_none {α β : Type} {f : α → Option β} :
    ∀ {l : List α}, mapOrAbort f l = none ↔ ∃ a ∈ l, f a = none := by
  intro l
  induction l with
  | nil => simp [mapOrAbort]
  | cons a t ih =>
      rw [mapOrAbort]
      rcases hfa : f a with _ | b0
      · constructor
        · intro _
          exact ⟨a, List.mem_cons_self a t, hfa⟩
        · intro _
          rcases hmt : mapOrAbort f t with _ | bs <;> rfl
      · rcases hmt : mapOrAbort f t with _ | bs
        · constructor
          · intro _
            rcases ih.mp hmt with ⟨a1, ha1, hfa1⟩
            exact ⟨a1, List.mem_cons_of_mem a ha1, hfa1⟩
          · intro _
            rfl
        · constructor
          · intro h
            exact absurd h (by simp)
          · rintro ⟨a1, ha1, hfa1⟩
            rcases List.mem_cons.mp ha1 with rfl | hm
            · rw [hfa] at hfa1
              cases hfa1
            · rw [ih.mpr ⟨a1, hm, hfa1⟩] at hmt
              cases hmt

theorem mnli_row_to_example_eq_none (set_type : String) (row : List String) :
    mnli_row_to_example set_type row = none ↔ row.length < 10 := by
  rcases h9 : row[9]? with _ | tb
  · have hlen : row.length ≤ 9 := List.getElem?_eq_none_iff.mp h9
    rcases h0 : row[0]? with _ | c0 <;> rcases h8 : row[8]? with _ | ta <;>
      rcases hl : row.getLast? with _ | lab <;>
        simp [mnli_row_to_example, pyGet, pyGetLast, h0, h8, h9, hl] <;> omega
  · have hlen : 9 < row.length := by
      rcases List.getElem?_eq_some_iff.mp h9 with ⟨h, _⟩
      exact h
    have h0 : row[0]? = some row[0] := List.getElem?_eq_getElem (by omega)
    have h8 : row[8]? = some row[8] := List.getElem?_eq_getElem (by omega)
    have hne : row ≠ [] := by
      intro he
      rw [he] at hlen
      exact absurd hlen (by simp)
    rcases Option.isSome_iff_exists.mp (List.getLast?_isSome.mpr hne) with ⟨lab, hl⟩
    simp [mnli_row_to_example, pyGet, pyGetLast, h0, h8, h9, hl]
    omega

theorem xnli_row_to_example_eq_none (set_type : String) (row : List String) :
    xnli_row_to_example set_type row = none ↔ row.length < 8 := by
  rcases h7 : row[7]? with _ | tb
  · have hlen : row.length ≤ 7 := List.getElem?_eq_none_iff.mp h7
    rcases h0 : row[0]? with _ | c0 <;> rcases h6 : row[6]? with _ | ta <;>
      rcases h1 : row[1]? with _ | lab <;>
        simp [xnli_row_to_example, pyGet, h0, h6, h7, h1] <;> omega
  · have hlen : 7 < row.length := by
      rcases List.getElem?_eq_some_iff.mp h7 with ⟨h, _⟩
      exact h
    have h0 : row[0]? = some row[0] := List.getElem?_eq_getElem (by omega)
    have h6 : row[6]? = some row[6] := List.getElem?_eq_getElem (by omega)
    have h1 : row[1]? = some row[1] := List.getElem?_eq_getElem (by omega)
    simp [xnli_row_to_example, pyGet, h0, h6, h7, h1]
    omega

theorem mnli_row_to_example_guid {set_type : String} {row : List String}
    {ex : InputExample} (h : mnli_row_to_example set_type row = some ex) :
    ∃ c0, row.get? 0 = some c0 ∧ ex.guid = set_type ++ "-" ++ c0 := by
  rcases h0 : row[0]? with _ | c0 <;> rcases h8 : row[8]? with _ | ta <;>
    rcases h9 : row[9]? with _ | tb <;> rcases hl : row.getLast? with _ | lab <;>
      simp [mnli_row_to_example, pyGet, pyGetLast, List.get?_eq_getElem?,
        h0, h8, h9, hl] at h ⊢
  subst h
  rfl

theorem xnli_row_to_example_guid {set_type : String} {row : List String}
    {ex : InputExample} (h : xnli_row_to_example set_type row = some ex) :
    ∃ c0, row.get? 0 = some c0 ∧ ex.guid = set_type ++ "-" ++ c0 := by
  rcases h0 : row[0]? with _ | c0 <;> rcases h6 : row[6]? with _ | ta <;>
    rcases h7 : row[7]? with _ | tb <;> rcases h1 : row[1]? with _ | lab <;>
      simp [xnli_row_to_example, pyGet, List.get?_eq_getElem?, h0, h6, h7, h1] at h ⊢
  subst h
  rfl

/-- C6 counterexample: a file whose data row has `"foo"` in its first column
yields the identifier `"train-foo"` under both processors, not
`"train-1"` or `"train-0"` as the row-index claim predicts. -/
theorem C6_counterexample :
    (mnli_create_examples [[], c6_row] "train").map (List.map InputExample.guid)
        = some ["train-foo"] ∧
    (xnli_create_examples [[], c6_row] "train").map (List.map InputExample.guid)
        = some ["train-foo"] ∧
    "train-foo" ≠ "train-1" ∧ "train-foo" ≠ "train-0" := by
  refine ⟨by decide, by decide, by decide, by decide⟩

/-- C6 amended: for both processors the created example list corresponds
index by index to the data rows, and the example built from data row `n` has
the identifier `"{split}-{c0}"` where `c0` is the value of that very row's
first column (which coincides with the row index only when the file's first
column carries it). -/
theorem C6_amended_guid (lines : List (List String)) (set_type : String) :
    (∀ exs, mnli_create_examples lines set_type = some exs →
      exs.length = (lines.drop 1).length ∧
      ∀ n row ex, (lines.drop 1).get? n = some row → exs.get? n = some ex →
        mnli_row_to_example set_type row = some ex ∧
        ∃ c0, row.get? 0 = some c0 ∧ ex.guid = set_type ++ "-" ++ c0) ∧
    (∀ exs, xnli_create_examples lines set_type = some exs →
      exs.length = (lines.drop 1).length ∧
      ∀ n row ex, (lines.drop 1).get? n = some row → exs.get? n = some ex →
        xnli_row_to_example set_type row = some ex ∧
        ∃ c0, row.get? 0 = some c0 ∧ ex.guid = set_type ++ "-" ++ c0) := by
  constructor
  · intro exs h
    refine ⟨mapOrAbort_length h, ?_⟩
    intro n row ex hrow hex
    have hsome : mnli_row_to_example set_type row = some ex := mapOrAbort_get h hrow hex
    exact ⟨hsome, mnli_row_to_example_guid hsome⟩
  · intro exs h
    refine ⟨mapOrAbort_length h, ?_⟩
    intro n row ex hrow hex
    have hsome : xnli_row_to_example set_type row = some ex := mapOrAbort_get h hrow hex
    exact ⟨hsome, xnli_row_to_example_guid hsome⟩

/-- Witness for the amended C6 on the two-row file `[[], c6_row]`: the
example at index 0 is built from the data row at index 0 and carries its
first column `"foo"` in the identifier. -/
theorem C6_amended_guid_witness :
    (mnli_create_examples [[], c6_row] "train" = some [c6_example] ∧
      ([[], c6_row].drop 1).get? 0 = some c6_row ∧
      ([c6_example] : List InputExample).get? 0 = some c6_example) ∧
    (mnli_row_to_example "train" c6_row = some c6_example ∧
      ∃ c0, c6_row.get? 0 = some c0 ∧ c6_example.guid = "train" ++ "-" ++ c0) :=
  ⟨⟨by decide, by decide, by decide⟩,
    ((C6_amended_guid [[], c6_row] "train").1 [c6_example] (by decide)).2 0 c6_row
      c6_example (by decide) (by decide)⟩

/-- C7: parsing aborts (the fatal short-row failure the spec calls
`FormatError`) exactly when some data row after the header has fewer columns
than the active profile requires — 10 for the MNLI profile, 8 for the XNLI
profile; rows with enough columns never trigger it. -/
theorem C7_short_row_aborts (lines : List (List String)) (set_type : String) :
    (mnli_create_examples lines set_type = none ↔
      ∃ row ∈ lines.drop 1, row.length < 10) ∧
    (xnli_create_examples lines set_type = none ↔
      ∃ row ∈ lines.drop 1, row.length < 8) := by
  constructor
  · rw [mnli_create_examples, mapOrAbort_eq_none]
    simp only [mnli_row_to_example_eq_none]
  · rw [xnli_create_examples, mapOrAbort_eq_none]
    simp only [xnli_row_to_example_eq_none]

theorem getD_map_lt (g : List Int → List Int) (rows : List (List Int)) (i : Nat)
    (hi : i < rows.length) :
    (rows.map g).getD i [] = g (rows.getD i []) := by
  have h : rows[i]? = some rows[i] := List.getElem?_eq_getElem hi
  rw [List.getD_eq_getElem?_getD, List.getD_eq_getElem?_getD, List.getElem?_map, h]
  simp

theorem getD_mem_of_lt (rows : List (List Int)) (i : Nat) (hi : i < rows.length) :
    rows.getD i [] ∈ rows := by
  rw [List.getD_eq_getElem?_getD, List.getElem?_eq_getElem hi]
  exact List.getElem_mem hi

theorem loss_mask_spec (labels : List (List Int)) (i j : Nat)
    (hi : i < labels.length) (hj : j < listMax (labels.map List.length)) :
    ((labels.map fun item =>
        List.replicate item.length (1 : Int)
          ++ List.replicate (listMax (labels.map List.length) - item.length) 0).getD i []).length
      = listMax (labels.map List.length) ∧
    ((labels.map fun item =>
        List.replicate item.length (1 : Int)
          ++ List.replicate (listMax (labels.map List.length) - item.length) 0).getD i []).get? j
      = some (if j < (labels.getD i []).length then 1 else 0) := by
  have hrow := getD_map_lt
    (fun item => List.replicate item.length (1 : Int)
      ++ List.replicate (listMax (labels.map List.length) - item.length) 0) labels i hi
  have hle : (labels.getD i []).length ≤ listMax (labels.map List.length) :=
    le_listMax (List.mem_map_of_mem List.length (getD_mem_of_lt labels i hi))
  rw [hrow]
  constructor
  · simp only [List.length_append, List.length_replicate]
    omega
  · by_cases hcase : j < (labels.getD i []).length
    · rw [if_pos hcase, List.get?_eq_getElem?,
        List.getElem?_append_left (by simpa using hcase)]
      rw [List.getElem?_replicate, if_pos hcase]
    · rw [if_neg hcase, List.get?_eq_getElem?,
        List.getElem?_append_right (by simpa using Nat.le_of_not_lt hcase)]
      simp only [List.length_replicate, List.getElem?_replicate]
      rw [if_pos (by omega)]

theorem pad_rows_spec (rows : List (List Int)) (pad : Int) (i : Nat)
    (hi : i < rows.length) :
    (rows.map fun item =>
        item ++ List.replicate (listMax (rows.map List.length) - item.length) pad).getD i []
      = rows.getD i []
          ++ List.replicate (listMax (rows.map List.length) - (rows.getD i []).length) pad ∧
    ((rows.map fun item =>
        item ++ List.replicate (listMax (rows.map List.length) - item.length) pad).getD i
          []).length
      = listMax (rows.map List.length) ∧
    ((rows.map fun item =>
        item ++ List.replicate (listMax (rows.map List.length) - item.length) pad).getD i
          []).take (rows.getD i []).length
      = rows.getD i [] := by
  have hrow := getD_map_lt
    (fun item => item ++ List.replicate (listMax (rows.map List.length) - item.length) pad)
    rows i hi
  have hle : (rows.getD i []).length ≤ listMax (rows.map List.length) :=
    le_listMax (List.mem_map_of_mem List.length (getD_mem_of_lt rows i hi))
  refine ⟨hrow, ?_, ?_⟩
  · rw [hrow]
    simp only [List.length_append, List.length_replicate]
    omega
  · rw [hrow]
    exact List.take_left _ _

/-- C8: in both collate functions, row `i` of `loss_mask` has length equal to
the batch's maximum label length and carries `1` exactly at the positions
below row `i`'s original label length, `0` elsewhere. -/
theorem C8_loss_mask (tokenizer : Tokenizer) (bp : List Feature) (bx : List FeatureX)
    (i j k m : Nat)
    (hip : i < bp.length)
    (hjp : j < listMax ((bp.map Feature.labels).map List.length))
    (hkx : k < bx.length)
    (hmx : m < listMax ((bx.map FeatureX.labels).map List.length)) :
    ((ptune_collate_fn tokenizer bp).loss_mask.getD i []).length
        = listMax ((bp.map Feature.labels).map List.length) ∧
    ((ptune_collate_fn tokenizer bp).loss_mask.getD i []).get? j
        = some (if j < ((bp.map Feature.labels).getD i []).length then 1 else 0) ∧
    ((xnli_collate_fn tokenizer bx).loss_mask.getD k []).length
        = listMax ((bx.map FeatureX.labels).map List.length) ∧
    ((xnli_collate_fn tokenizer bx).loss_mask.getD k []).get? m
        = some (if m < ((bx.map FeatureX.labels).getD k []).length then 1 else 0) := by
  have hp := loss_mask_spec (bp.map Feature.labels) i j (by simpa using hip) hjp
  have hx := loss_mask_spec (bx.map FeatureX.labels) k m (by simpa using hkx) hmx
  exact ⟨hp.1, hp.2, hx.1, hx.2⟩

/-- Witness for C8 on concrete batches: a two-feature P-Tune batch with
label rows of lengths 2 and 1, and a singleton XNLI batch. -/
theorem C8_loss_mask_witness :
    (0 < bpW.length ∧ 1 < listMax ((bpW.map Feature.labels).map List.length) ∧
      0 < bxW.length ∧ 0 < listMax ((bxW.map FeatureX.labels).map List.length)) ∧
    (((ptune_collate_fn (constTok []) bpW).loss_mask.getD 0 []).length
        = listMax ((bpW.map Feature.labels).map List.length) ∧
    ((ptune_collate_fn (constTok []) bpW).loss_mask.getD 0 []).get? 1
        = some (if 1 < ((bpW.map Feature.labels).getD 0 []).length then 1 else 0) ∧
    ((xnli_collate_fn (constTok []) bxW).loss_mask.getD 0 []).length
        = listMax ((bxW.map FeatureX.labels).map List.length) ∧
    ((xnli_collate_fn (constTok []) bxW).loss_mask.getD 0 []).get? 0
        = some (if 0 < ((bxW.map FeatureX.labels).getD 0 []).length then 1 else 0)) :=
  ⟨⟨by decide, by decide, by decide, by decide⟩,
    C8_loss_mask (constTok []) bpW bxW 0 1 0 0 (by decide) (by decide) (by decide)
      (by decide)⟩

/-- C9: both collate functions pad each of the three fields to that field's
own batch maximum by appending `pad_id` on the right, so each padded row is
the original row followed by padding, has the field maximum as length, and
agrees with the original Feature's ids on every position before the
original length. -/
theorem C9_independent_padding (tokenizer : Tokenizer) (bp : List Feature)
    (bx : List FeatureX) (i k : Nat) (hip : i < bp.length) (hkx : k < bx.length) :
    ((ptune_collate_fn tokenizer bp).text_enc.getD i []
        = (bp.map Feature.enc_query).getD i []
          ++ List.replicate (listMax ((bp.map Feature.enc_query).map List.length)
              - ((bp.map Feature.enc_query).getD i []).length) tokenizer.pad_id ∧
      ((ptune_collate_fn tokenizer bp).text_enc.getD i []).length
        = listMax ((bp.map Feature.enc_query).map List.length) ∧
      ((ptune_collate_fn tokenizer bp).text_enc.getD i []).take
          ((bp.map Feature.enc_query).getD i []).length
        = (bp.map Feature.enc_query).getD i []) ∧
    ((ptune_collate_fn tokenizer bp).text_dec.getD i []
        = (bp.map Feature.dec_input).getD i []
          ++ List.replicate (listMax ((bp.map Feature.dec_input).map List.length)
              - ((bp.map Feature.dec_input).getD i []).length) tokenizer.pad_id ∧
      ((ptune_collate_fn tokenizer bp).text_dec.getD i []).length
        = listMax ((bp.map Feature.dec_input).map List.length) ∧
      ((ptune_collate_fn tokenizer bp).text_dec.getD i []).take
          ((bp.map Feature.dec_input).getD i []).length
        = (bp.map Feature.dec_input).getD i []) ∧
    ((ptune_collate_fn tokenizer bp).labels.getD i []
        = (bp.map Feature.labels).getD i []
          ++ List.replicate (listMax ((bp.map Feature.labels).map List.length)
              - ((bp.map Feature.labels).getD i []).length) tokenizer.pad_id ∧
      ((ptune_collate_fn tokenizer bp).labels.getD i []).length
        = listMax ((bp.map Feature.labels).map List.length) ∧
      ((ptune_collate_fn tokenizer bp).labels.getD i []).take
          ((bp.map Feature.labels).getD i []).length
        = (bp.map Feature.labels).getD i []) ∧
    ((xnli_collate_fn tokenizer bx).text_enc.getD k []
        = (bx.map FeatureX.enc_query).getD k []
          ++ List.replicate (listMax ((bx.map FeatureX.enc_query).map List.length)
              - ((bx.map FeatureX.enc_query).getD k []).length) tokenizer.pad_id ∧
      ((xnli_collate_fn tokenizer bx).text_enc.getD k []).length
        = listMax ((bx.map FeatureX.enc_query).map List.length) ∧
      ((xnli_collate_fn tokenizer bx).text_enc.getD k []).take
          ((bx.map FeatureX.enc_query).getD k []).length
        = (bx.map FeatureX.enc_query).getD k []) ∧
    ((xnli_collate_fn tokenizer bx).text_dec.getD k []
        = (bx.map FeatureX.dec_input).getD k []
          ++ List.replicate (listMax ((bx.map FeatureX.dec_input).map List.length)
              - ((bx.map FeatureX.dec_input).getD k []).length) tokenizer.pad_id ∧
      ((xnli_collate_fn tokenizer bx).text_dec.getD k []).length
        = listMax ((bx.map FeatureX.dec_input).map List.length) ∧
      ((xnli_collate_fn tokenizer bx).text_dec.getD k []).take
          ((bx.map FeatureX.dec_input).getD k []).length
        = (bx.map FeatureX.dec_input).getD k []) ∧
    ((xnli_collate_fn tokenizer bx).labels.getD k []
        = (bx.map FeatureX.labels).getD k []
          ++ List.replicate (listMax ((bx.map FeatureX.labels).map List.length)
              - ((bx.map FeatureX.labels).getD k []).length) tokenizer.pad_id ∧
      ((xnli_collate_fn tokenizer bx).labels.getD k []).length
        = listMax ((bx.map FeatureX.labels).map List.length) ∧
      ((xnli_collate_fn tokenizer bx).labels.getD k []).take
          ((bx.map FeatureX.labels).getD k []).length
        = (bx.map FeatureX.labels).getD k []) :=
  ⟨pad_rows_spec (bp.map Feature.enc_query) tokenizer.pad_id i (by simpa using hip),
   pad_rows_spec (bp.map Feature.dec_input) tokenizer.pad_id i (by simpa using hip),
   pad_rows_spec (bp.map Feature.labels) tokenizer.pad_id i (by simpa using hip),
   pad_rows_spec (bx.map FeatureX.enc_query) tokenizer.pad_id k (by simpa using hkx),
   pad_rows_spec (bx.map FeatureX.dec_input) tokenizer.pad_id k (by simpa using hkx),
   pad_rows_spec (bx.map FeatureX.labels) tokenizer.pad_id k (by simpa using hkx)⟩

/-- Witness for C9: one conjunct instantiated on the concrete batches, the
padded first encoder row of the P-Tune batch. -/
theorem C9_independent_padding_witness :
    (0 < bpW.length ∧ 0 < bxW.length) ∧
    (ptune_collate_fn (constTok []) bpW).text_enc.getD 0 []
      = (bpW.map Feature.enc_query).getD 0 []
        ++ List.replicate (listMax ((bpW.map Feature.enc_query).map List.length)
            - ((bpW.map Feature.enc_query).getD 0 []).length) (constTok []).pad_id :=
  ⟨⟨by decide, by decide⟩,
    (C9_independent_padding (constTok []) bpW bxW 0 0 (by decide) (by decide)).1.1⟩

theorem pySplitChar_ne_nil (sep : Char) : ∀ l : List Char, pySplitChar sep l ≠ [] := by
  intro l
  cases l with
  | nil => simp [pySplitChar]
  | cons c t =>
      by_cases h : c = sep
      · simp [pySplitChar, h]
      · rcases ht : pySplitChar sep t with _ | ⟨r, rs⟩ <;> simp [pySplitChar, h, ht]

theorem pySplitChar_head (sep : Char) : ∀ l : List Char,
    (pySplitChar sep l).get? 0 = some (l.takeWhile (fun c => c ≠ sep)) := by
  intro l
  induction l with
  | nil => simp [pySplitChar]
  | cons c t ih =>
      by_cases h : c = sep
      · subst h
        simp [pySplitChar, List.takeWhile_cons]
      · rcases ht : pySplitChar sep t with _ | ⟨r, rs⟩
        · exact absurd ht (pySplitChar_ne_nil sep t)
        · rw [ht] at ih
          simp only [List.get?_cons_zero, Option.some.injEq] at ih
          simp [pySplitChar, h, ht, List.takeWhile_cons, ih]

theorem pySplitChar_first_sep (sep : Char) : ∀ (pre post : List Char), sep ∉ pre →
    pySplitChar sep (pre ++ sep :: post) = pre :: pySplitChar sep post := by
  intro pre
  induction pre with
  | nil =>
      intro post _
      simp [pySplitChar]
  | cons c p ih =>
      intro post hnotin
      have hc : ¬ (c = sep) := by
        intro h
        exact hnotin (h ▸ List.mem_cons_self c p)
      have hp : sep ∉ p := fun h => hnotin (List.mem_cons_of_mem _ h)
      rcases ht : pySplitChar sep (p ++ sep :: post) with _ | ⟨r, rs⟩
      · exact absurd ht (pySplitChar_ne_nil sep _)
      · have := ih post hp
        rw [ht] at this
        rcases List.cons.inj this with ⟨rfl, rfl⟩
        simp [List.cons_append, pySplitChar, hc, ht]

theorem guid_lang_eq {guid : String} {pre post : List Char}
    (hsplit : guid.data = pre ++ '-' :: post) (hpre : '-' ∉ pre) :
    guid_lang guid = some (post.takeWhile (fun c => c ≠ '-')).asString := by
  rw [guid_lang, hsplit, pySplitChar_first_sep '-' pre post hpre]
  rw [show (1 : Nat) = 0 + 1 from rfl, List.get?_cons_succ, pySplitChar_head]
  rfl

/-- C10: the XNLI converter tags every feature with the component of the
Example's identifier immediately after the first `'-'`: the characters
between the first `'-'` and the next `'-'` if any. -/
theorem C10_lang_tag (tokenizer : Tokenizer) (templates : Nat × Nat)
    (pseudo_token_id : Int) (max_seq_length max_seq_length_decoder : Nat)
    (ex : InputExample) (pre post : List Char)
    (hsplit : ex.guid.data = pre ++ '-' :: post) (hpre : '-' ∉ pre) :
    (xnli_convert_example tokenizer templates pseudo_token_id max_seq_length
        max_seq_length_decoder ex).lang
      = some (post.takeWhile (fun c => c ≠ '-')).asString :=
  guid_lang_eq hsplit hpre

/-- Witness for C10 at the identifier `"train-de-1"`, whose component after
the first dash is `"de"`. -/
theorem C10_lang_tag_witness :
    (exA.guid.data = "train".data ++ '-' :: "de-1".data ∧ '-' ∉ "train".data) ∧
    (xnli_convert_example (constTok [1, 2]) (1, 1) 9 10 8 exA).lang
      = some ("de-1".data.takeWhile (fun c => c ≠ '-')).asString :=
  ⟨⟨by decide, by decide⟩,
    C10_lang_tag (constTok [1, 2]) (1, 1) 9 10 8 exA "train".data "de-1".data
      (by decide) (by decide)⟩

end PTune
